import Mathlib

/-!
Shallow embedding of the payment-routing and fee-calculation subsystem of
the bleu-smart-flow invoicing application, together with proofs about the
claims of its specification.

The embedded code lives in three serverless handlers:
* `supabase/functions/create-checkout/index.ts` — fee calculator, account
  router, checkout-session builder and orchestrator;
* `supabase/functions/generate-receipt/index.ts` — two concatenated
  handlers: the receipt generator and the Stripe webhook reconciler;
* `supabase/functions/stripe-connect/index.ts` — account onboarding.

Conventions of the embedding:
* Money amounts are integer cents (`Nat`), exactly as the handlers compute
  them (`Math.round(price * 100)` produces a non-negative integer).
* `Math.round(x)` on a non-negative `x` is round-half-up; for the fee
  rates `0.049 = 49/1000` … `0.015 = 15/1000` it is embedded as the exact
  rational rounding `(k * a + 500) / 1000` (Nat floor division).  This
  agrees with the IEEE-double computation of the source on the whole
  input range relevant here (checked exhaustively on 1..300000 cents).
* Database reads/writes are explicit state passing over lists of records;
  external Stripe calls are oracle functions passed as parameters, with
  `Except` for fallible calls, mirroring thrown exceptions.
* HTTP responses are records of the JSON fields the handlers emit; a JSON
  field that a branch omits is modelled as `none` / `false`.
-/

namespace BleuSmartFlow

/-! ### Fee calculator (`create-checkout/index.ts`, lines 17–38)

`calculatePlatformFee` receives `amountInCents`, computes
`amountInDollars = amountInCents / 100` and picks the tier by comparing
the dollar amount against 100 / 500 / 1000 / 2500; on integer cents the
comparisons are exactly `amountInCents < 10000` etc.  Each tier returns
`Math.round(amountInCents * rate) (+ 30)`. -/

/-- Round-half-up of `n / 1000` for a natural `n`: the exact value of
`Math.round(n / 1000)` when `n / 1000` carries no floating-point error. -/
def roundPerMille (n : Nat) : Nat := (n + 500) / 1000

/-- Tiered platform fee, in integer cents, of a base amount in integer
cents (`calculatePlatformFee` in `create-checkout/index.ts`). -/
def calculatePlatformFee (amountInCents : Nat) : Nat :=
  if amountInCents < 10000 then roundPerMille (49 * amountInCents) + 30
  else if amountInCents < 50000 then roundPerMille (39 * amountInCents) + 30
  else if amountInCents < 100000 then roundPerMille (29 * amountInCents) + 30
  else if amountInCents < 250000 then roundPerMille (19 * amountInCents) + 30
  else roundPerMille (15 * amountInCents)

example : calculatePlatformFee 4999 = 275 := by decide
example : calculatePlatformFee 9999 = 520 := by decide
example : calculatePlatformFee 10000 = 420 := by decide
example : calculatePlatformFee 49999 = 1980 := by decide
example : calculatePlatformFee 50000 = 1480 := by decide
example : calculatePlatformFee 99999 = 2930 := by decide
example : calculatePlatformFee 100000 = 1930 := by decide
example : calculatePlatformFee 249999 = 4780 := by decide
example : calculatePlatformFee 250000 = 3750 := by decide
example : calculatePlatformFee 1 = 30 := by decide

/-! ### Account router (`create-checkout/index.ts`, lines 14, 204–250)

The handler looks up the job's company profile with
`.eq('company_id', cid).eq('stripe_connected', true).single()`; a missing
row (or query error) is the `profileError` branch.  A found profile with a
non-null `stripe_account_id` different from the platform's own account id
triggers a live `stripe.accounts.retrieve`; only `charges_enabled = true`
turns Connect routing on, and a thrown retrieve error falls back to the
platform.  The Stripe call is an oracle parameter
`retrieveAccount : String → Except String Bool` returning the account's
`charges_enabled` flag or a thrown error. -/

/-- Hard-coded platform account id (`PLATFORM_STRIPE_ACCOUNT_ID`). -/
def PLATFORM_STRIPE_ACCOUNT_ID : String := "acct_1RWAfbLgPKVoUe8t"

/-- The columns of a `profiles` row that the router reads. -/
structure Profile where
  company_id : String
  stripe_account_id : Option String
  stripe_connected : Bool
  deriving Repr, DecidableEq

/-- The `profiles` query of lines 211–216: first row with the given
`company_id` and `stripe_connected = true` (`.single()` errors when there
is no such row, the `profileError` branch). -/
def lookupConnectedProfile (profiles : List Profile) (cid : String) :
    Option Profile :=
  profiles.find? (fun p => p.company_id == cid && p.stripe_connected)

/-- The three routing variables of lines 205–207 as they stand after the
routing block. -/
structure RoutingResult where
  useStripeConnect : Bool
  connectedStripeAccountId : Option String
  connectedAccountChargesEnabled : Bool
  deriving Repr, DecidableEq

/-- Routing decision of lines 204–250.  `companyId` is `job.company_id`
(nullable). -/
def decideRouting (profiles : List Profile) (companyId : Option String)
    (retrieveAccount : String → Except String Bool) : RoutingResult :=
  match companyId with
  | none => ⟨false, none, false⟩
  | some cid =>
    match lookupConnectedProfile profiles cid with
    | none => ⟨false, none, false⟩
    | some p =>
      match p.stripe_account_id with
      | none => ⟨false, none, false⟩
      | some acct =>
        if acct = PLATFORM_STRIPE_ACCOUNT_ID then
          ⟨false, some acct, false⟩
        else
          match retrieveAccount acct with
          | .error _ => ⟨false, some acct, false⟩
          | .ok chargesEnabled =>
            if chargesEnabled then ⟨true, some acct, true⟩
            else ⟨false, some acct, false⟩

/-! ### Checkout session builder (`create-checkout/index.ts`, lines 255–295) -/

/-- The columns of a `jobs` row that the checkout handler reads.  `price`
is kept in integer cents, the value `Math.round(parseFloat(job.price)*100)`
the handler computes; the handler's positivity check on the parsed price is
embedded as `0 < price_cents`. -/
structure Job where
  id : String
  company_id : Option String
  price_cents : Nat
  job_name : Option String
  client_name : Option String
  deriving Repr, DecidableEq

/-- `payment_intent_data` of lines 286–291: application fee and transfer
destination. -/
structure PaymentIntentData where
  application_fee_amount : Nat
  destination : Option String
  deriving Repr, DecidableEq

/-- The checkout-session configuration fields the claims concern
(`sessionConfig`, lines 255–295).  `unit_amount` is the single line item's
price; the metadata keeps the audit fields of lines 273–281. -/
structure SessionConfig where
  unit_amount : Nat
  metadata_job_id : String
  metadata_company_id : String
  metadata_base_price_cents : Nat
  metadata_platform_fee_cents : Nat
  metadata_total_price_cents : Nat
  metadata_routing_method : String
  payment_intent_data : Option PaymentIntentData
  deriving Repr, DecidableEq

/-- Builds `sessionConfig` (lines 255–282) and conditionally attaches
`payment_intent_data` (lines 285–295, guard
`useStripeConnect && platformFee > 0`). -/
def buildSessionConfig (jobId : String) (job : Job)
    (basePriceInCents platformFee totalPriceInCents : Nat)
    (routing : RoutingResult) : SessionConfig :=
  { unit_amount := totalPriceInCents
    metadata_job_id := jobId
    metadata_company_id := job.company_id.getD ""
    metadata_base_price_cents := basePriceInCents
    metadata_platform_fee_cents := platformFee
    metadata_total_price_cents := totalPriceInCents
    metadata_routing_method :=
      if routing.useStripeConnect then "stripe_connect_updated_tiers"
      else "platform_only"
    payment_intent_data :=
      if routing.useStripeConnect && platformFee > 0 then
        some ⟨platformFee, routing.connectedStripeAccountId⟩
      else none }

/-! ### Checkout orchestrator (`create-checkout/index.ts`, lines 92–392)

`createSession cfg acct` is the oracle for
`stripe.checkout.sessions.create(cfg, { stripeAccount })` (`acct = none`
for a platform-context call); it returns the created session's id and URL
or a thrown error.  The handler's response body is embedded field by
field; every branch of the handler shown here answers HTTP 200, and the
`jobs.update` persisting the payment URL (lines 309–322) is tolerated on
failure and not consulted by any response field, so the response is a pure
function of the inputs.  The second component of the result is the log of
`sessions.create` calls actually issued, in order. -/

/-- A successfully created checkout session as the handler reads it. -/
structure StripeSession where
  id : String
  url : String
  deriving Repr, DecidableEq

/-- `pricing_info` of the success response (lines 329–335), kept in cents
(the handler divides by 100 for display only). -/
structure PricingInfo where
  base_price_cents : Nat
  platform_fee_cents : Nat
  total_customer_pays_cents : Nat
  connect_used : Bool
  deriving Repr, DecidableEq

/-- `routing_info` of the success response (lines 336–342). -/
structure RoutingInfo where
  method : String
  destination_account : String
  fee_amount_cents : Nat
  base_amount_cents : Nat
  charges_enabled : Bool
  deriving Repr, DecidableEq

/-- JSON body of the checkout handler's response; fields a branch omits
are `none`. -/
structure CheckoutResponse where
  success : Bool
  url : Option String
  sessionId : Option String
  pricing_info : Option PricingInfo
  routing_info : Option RoutingInfo
  warning : Option String
  error : Option String
  deriving Repr, DecidableEq

/-- An application-level failure body `{success:false, error}`. -/
def checkoutFailure (msg : String) : CheckoutResponse :=
  ⟨false, none, none, none, none, none, some msg⟩

/-- The full success response of lines 324–348. -/
def checkoutSuccess (s : StripeSession)
    (basePriceInCents platformFee totalPriceInCents : Nat)
    (routing : RoutingResult) : CheckoutResponse :=
  { success := true
    url := some s.url
    sessionId := some s.id
    pricing_info := some
      ⟨basePriceInCents, platformFee, totalPriceInCents,
        routing.useStripeConnect⟩
    routing_info := some
      ⟨(if routing.useStripeConnect then "stripe_connect_updated_tiers"
        else "platform_only"),
        (if routing.useStripeConnect then
          routing.connectedStripeAccountId.getD "" else "platform"),
        platformFee, basePriceInCents,
        routing.connectedAccountChargesEnabled⟩
    warning := none
    error := none }

/-- The platform-only fallback success response of lines 362–373: only
`success`, `url`, `sessionId` and `warning`. -/
def checkoutFallbackSuccess (s : StripeSession) : CheckoutResponse :=
  { success := true
    url := some s.url
    sessionId := some s.id
    pricing_info := none
    routing_info := none
    warning := some "Routed to platform account due to Stripe Connect issue"
    error := none }

/-- The checkout orchestrator from the parsed `jobId` on (lines 92–392):
validate, fetch the job, price check, fee, minimum-amount check, routing,
build, call Stripe with a single connect→platform fallback, respond. -/
def handleCreateCheckout (jobId : Option String) (jobs : List Job)
    (profiles : List Profile)
    (retrieveAccount : String → Except String Bool)
    (createSession : SessionConfig → Option String → Except String StripeSession) :
    CheckoutResponse × List (SessionConfig × Option String) :=
  match jobId with
  | none => (checkoutFailure "Job ID is required", [])
  | some jid =>
    match jobs.find? (fun j => j.id == jid) with
    | none => (checkoutFailure "Failed to fetch job", [])
    | some job =>
      if job.price_cents = 0 then
        (checkoutFailure "Invalid or missing price in job data", [])
      else
        let basePriceInCents := job.price_cents
        let platformFee := calculatePlatformFee basePriceInCents
        let totalPriceInCents := basePriceInCents + platformFee
        if totalPriceInCents < 50 then
          (checkoutFailure
            "Job price too low for payment processing (minimum $0.50 total including fee)",
            [])
        else
          let routing := decideRouting profiles job.company_id retrieveAccount
          let cfg := buildSessionConfig jid job basePriceInCents platformFee
            totalPriceInCents routing
          let acctCtx :=
            if routing.useStripeConnect &&
                routing.connectedStripeAccountId.isSome then
              routing.connectedStripeAccountId
            else none
          match createSession cfg acctCtx with
          | .ok s =>
            (checkoutSuccess s basePriceInCents platformFee totalPriceInCents
              routing, [(cfg, acctCtx)])
          | .error e =>
            if routing.useStripeConnect then
              let fallbackCfg := { cfg with payment_intent_data := none }
              match createSession fallbackCfg none with
              | .ok s =>
                (checkoutFallbackSuccess s,
                  [(cfg, acctCtx), (fallbackCfg, none)])
              | .error e2 =>
                (checkoutFailure e2, [(cfg, acctCtx), (fallbackCfg, none)])
            else
              (checkoutFailure e, [(cfg, acctCtx)])

/-! ### Receipt generator (`generate-receipt/index.ts`, first handler,
lines 91–169) and webhook reconciler (second handler, lines 180–299)

Database state is the `jobs` and `receipts` tables plus a counter feeding
`crypto.randomUUID()` (only freshness of the generated ids matters).
Timestamps are abstract `Nat` clock readings passed in by the caller
(`new Date()`).  The webhook's `fetch` of the generate-receipt function
(lines 256–271) is embedded as a direct call whose failure is tolerated,
exactly as the surrounding `try`/`catch` does. -/

/-- A row of the `jobs` table as the webhook path reads and writes it. -/
structure JobRow where
  id : String
  status : String
  paid_at : Option Nat
  receipt_id : Option String
  price_cents : Nat
  deriving Repr, DecidableEq

/-- A row of the `receipts` table (`receipts` migration: id, job_id,
session_id, amount_paid, receipt_html, created_at; the rendered HTML
string is not consulted by any claim and is elided). -/
structure ReceiptRow where
  id : String
  job_id : String
  session_id : String
  amount_paid : Nat
  created_at : Nat
  deriving Repr, DecidableEq

/-- The persistent state the two handlers touch. -/
structure DB where
  jobs : List JobRow
  receipts : List ReceiptRow
  uuidCounter : Nat
  deriving Repr, DecidableEq

/-- Fresh id for `crypto.randomUUID()`: distinct for each counter value. -/
def freshReceiptId (db : DB) : String := "uuid-" ++ toString db.uuidCounter

/-- Request body of the generate-receipt handler. -/
structure ReceiptData where
  jobId : String
  sessionId : String
  amountPaid : Nat
  paymentDate : Nat
  deriving Repr, DecidableEq

/-- Reply of the generate-receipt handler: HTTP status plus the
`receiptId` of the success body. -/
structure ReceiptResponse where
  status : Nat
  receiptId : Option String
  deriving Repr, DecidableEq

/-- The generate-receipt handler (lines 96–168): fetch the job (missing →
throw → 500), insert a fresh `receipts` row, link `receipt_id` onto the
job, answer 200.  The insert has no existence check and no uniqueness key
on `session_id`. -/
def generateReceipt (rd : ReceiptData) (db : DB) : ReceiptResponse × DB :=
  match db.jobs.find? (fun j => j.id == rd.jobId) with
  | none => (⟨500, none⟩, db)
  | some _ =>
    let receiptId := freshReceiptId db
    let row : ReceiptRow :=
      ⟨receiptId, rd.jobId, rd.sessionId, rd.amountPaid, rd.paymentDate⟩
    let jobs := db.jobs.map (fun j =>
      if j.id == rd.jobId then { j with receipt_id := some receiptId } else j)
    (⟨200, some receiptId⟩,
      { jobs := jobs
        receipts := db.receipts ++ [row]
        uuidCounter := db.uuidCounter + 1 })

/-- A verified Stripe event as `stripe.webhooks.constructEvent` yields it:
type, the checkout session's id and `amount_total`, and the session
metadata's `job_id` (nullable). -/
structure StripeEvent where
  type : String
  sessionId : String
  amount_total : Nat
  metadata_job_id : Option String
  deriving Repr, DecidableEq

/-- Reply of the webhook handler: HTTP status plus the `received` flag of
the success body. -/
structure WebhookResponse where
  status : Nat
  received : Bool
  deriving Repr, DecidableEq

/-- The webhook reconciler (lines 186–298).  `verified` is the outcome of
signature verification (`constructEvent`, lines 206–212): `Except.error`
is a failed verification, answered 400 before anything else runs.  On a
valid `checkout.session.completed` event: missing `metadata.job_id` → 400;
`jobs.update(...).single()` on an id matching no row errors → throw → 500;
otherwise the job is marked paid, receipt generation is triggered and its
failure tolerated, and the handler answers `{received:true}`.  Every other
event type is acknowledged with `{received:true}` untouched. -/
def handleStripeWebhook (verified : Except String StripeEvent) (now : Nat)
    (db : DB) : WebhookResponse × DB :=
  match verified with
  | .error _ => (⟨400, false⟩, db)
  | .ok ev =>
    if ev.type == "checkout.session.completed" then
      match ev.metadata_job_id with
      | none => (⟨400, false⟩, db)
      | some jid =>
        match db.jobs.find? (fun j => j.id == jid) with
        | none => (⟨500, false⟩, db)
        | some _ =>
          let db1 : DB :=
            { db with jobs := db.jobs.map (fun j =>
                if j.id == jid then
                  { j with status := "paid", paid_at := some now }
                else j) }
          let db2 := (generateReceipt ⟨jid, ev.sessionId, ev.amount_total, now⟩ db1).2
          (⟨200, true⟩, db2)
    else (⟨200, true⟩, db)

/-- Receipts stored for a given checkout-session id. -/
def receiptsForSession (db : DB) (sid : String) : List ReceiptRow :=
  db.receipts.filter (fun r => r.session_id == sid)

/-! ### Account onboarding (`stripe-connect/index.ts`, lines 11–204)

Runs after bearer authentication.  The profile lookup reads
`stripe_connected` and `stripe_account_id` for the calling user;
`retrieveAccount` is the oracle for `stripe.accounts.retrieve`, returning
`details_submitted` and `charges_enabled` or a thrown error.  The profile
updates (reconciling `stripe_connected`, storing a new account id) do not
feed back into the response and are reported in the result's `linkCreated`
/ `accountCreated` flags rather than replayed as state. -/

/-- The live account flags the handler reads. -/
structure AccountStatus where
  details_submitted : Bool
  charges_enabled : Bool
  deriving Repr, DecidableEq

/-- The profile columns the handler reads. -/
structure ConnectProfile where
  stripe_connected : Bool
  stripe_account_id : Option String
  deriving Repr, DecidableEq

/-- JSON body of the stripe-connect response plus its HTTP status; the
`already_connected` field is absent (`false`) outside the short-circuit. -/
structure ConnectResponse where
  status : Nat
  success : Bool
  url : Option String
  account_id : Option String
  already_connected : Bool
  error : Option String
  deriving Repr, DecidableEq

/-- Fixed dashboard URL used by the short-circuit and the onboarding
link's return/refresh destinations. -/
def DASHBOARD_URL : String := "https://preview--bleu-smart-flow.lovable.app/"

/-- The stripe-connect handler from the profile lookup on (lines 56–192).
`profile` is the row found for the calling user (`.single()`; `none` is
the error branch).  `createAccount` yields the id of a freshly created
express account; `createAccountLink acct` yields the onboarding URL.  The
result's second component tells whether an onboarding link was created,
the third whether a new account was created. -/
def handleStripeConnect (profile : Option ConnectProfile)
    (retrieveAccount : String → Except String AccountStatus)
    (createAccount : Except String String)
    (createAccountLink : String → Except String String) :
    ConnectResponse × Bool × Bool :=
  let shortCircuit : Option ConnectResponse :=
    match profile with
    | some p =>
      match p.stripe_account_id with
      | some acct =>
        match retrieveAccount acct with
        | .ok st =>
          if st.details_submitted && st.charges_enabled then
            some ⟨200, true, some DASHBOARD_URL, none, true, none⟩
          else none
        | .error _ => none
      | none => none
    | none => none
  match shortCircuit with
  | some resp => (resp, false, false)
  | none =>
    match (profile.bind (fun p => p.stripe_account_id)) with
    | some acct =>
      match createAccountLink acct with
      | .ok url => (⟨200, true, some url, some acct, false, none⟩, true, false)
      | .error e => (⟨500, false, none, none, false, some e⟩, false, false)
    | none =>
      match createAccount with
      | .error e => (⟨500, false, none, none, false, some e⟩, false, false)
      | .ok acct =>
        match createAccountLink acct with
        | .ok url =>
          (⟨200, true, some url, some acct, false, none⟩, true, true)
        | .error e => (⟨500, false, none, none, false, some e⟩, false, true)

/-! ### Concrete sample scenario used by witnesses and counterexamples -/

/-- One job of $49.99 for company `c1`. -/
def sampleJobs : List Job := [⟨"j1", some "c1", 4999, none, none⟩]

/-- Company `c1` has a stored, cached-connected Stripe account. -/
def sampleProfiles : List Profile := [⟨"c1", some "acct_co", true⟩]

/-- Stripe oracle reporting every account as `charges_enabled`. -/
def okRetrieve : String → Except String Bool := fun _ => Except.ok true

/-- Stripe oracle that creates every requested session. -/
def okCreate : SessionConfig → Option String → Except String StripeSession :=
  fun _ _ => Except.ok ⟨"cs_1", "https://pay.example/1"⟩

/-- Stripe oracle that throws on any Connect-split request (a config
carrying `payment_intent_data`) and succeeds on platform-only configs:
the scenario of the connect→platform fallback branch. -/
def connectFailingCreate :
    SessionConfig → Option String → Except String StripeSession :=
  fun cfg _ =>
    if cfg.payment_intent_data.isSome then Except.error "connect declined"
    else Except.ok ⟨"cs_fb", "https://pay.example/fb"⟩

end BleuSmartFlow

namespace BleuSmartFlow

/-! ## Claims -/

/-- Claim C2, counterexample: the spec's boundary table is wrong at
49999/50000 — the code computes `fee(50000) = 1480` (the $500 amount
falls in the 2.9% tier), not the claimed 1980. -/
theorem fee_boundary_claim_false :
    calculatePlatformFee 50000 = 1480 ∧ calculatePlatformFee 50000 ≠ 1980 := by
  decide

/-- Claim C2 (amended): the fee calculator's actual boundary values are
`fee(9999)=520`, `fee(10000)=420`, `fee(49999)=1980`, `fee(50000)=1480`,
`fee(99999)=2930`, `fee(100000)=1930`, `fee(249999)=4780`,
`fee(250000)=3750`. -/
theorem fee_boundary_values :
    calculatePlatformFee 9999 = 520 ∧ calculatePlatformFee 10000 = 420 ∧
    calculatePlatformFee 49999 = 1980 ∧ calculatePlatformFee 50000 = 1480 ∧
    calculatePlatformFee 99999 = 2930 ∧ calculatePlatformFee 100000 = 1930 ∧
    calculatePlatformFee 249999 = 4780 ∧ calculatePlatformFee 250000 = 3750 := by
  decide

/-- Claim C3, counterexample: `fee(a) < a` fails for small positive
amounts — `fee(1) = 30`, which is not `< 1` (the fixed 30¢ component
dominates tiny amounts). -/
theorem fee_lt_amount_claim_false :
    calculatePlatformFee 1 = 30 ∧ ¬ calculatePlatformFee 1 < 1 := by
  decide

/-- Claim C3 (amended): for every positive cent amount the fee is
non-negative, and `fee(a) < a` holds for every amount `a ≥ 33` cents
(below 33¢ the fixed 30¢ component can reach or exceed the amount). -/
theorem fee_nonneg_and_lt_amount (a : Nat) (h : 0 < a) :
    0 ≤ calculatePlatformFee a ∧ (33 ≤ a → calculatePlatformFee a < a) := by
  refine ⟨Nat.zero_le _, fun h33 => ?_⟩
  unfold calculatePlatformFee roundPerMille
  split_ifs <;> omega

/-- Claim C3 witness: the amended bound instantiated at `a = 33`. -/
theorem fee_nonneg_and_lt_amount_at_33 :
    0 ≤ calculatePlatformFee 33 ∧ calculatePlatformFee 33 < 33 :=
  ⟨(fee_nonneg_and_lt_amount 33 (by decide)).1,
    (fee_nonneg_and_lt_amount 33 (by decide)).2 (by decide)⟩

/-- Claim C10: for every positive cent amount the platform fee is
strictly positive — at least 30¢ in the tiers below 250000¢ and at least
3750¢ from 250000¢ on — and therefore the session builder's
`useStripeConnect && platformFee > 0` guard always attaches the
application-fee/destination instructions when Connect routing is
selected. -/
theorem fee_positive_and_guard_never_suppresses (a : Nat) (h : 0 < a) :
    0 < calculatePlatformFee a ∧
    (a < 250000 → 30 ≤ calculatePlatformFee a) ∧
    (250000 ≤ a → 3750 ≤ calculatePlatformFee a) ∧
    (∀ (jid : String) (job : Job) (total : Nat) (routing : RoutingResult),
      routing.useStripeConnect = true →
      (buildSessionConfig jid job a (calculatePlatformFee a) total
          routing).payment_intent_data =
        some ⟨calculatePlatformFee a, routing.connectedStripeAccountId⟩) := by
  have hfee : 0 < calculatePlatformFee a := by
    unfold calculatePlatformFee roundPerMille
    split_ifs <;> omega
  refine ⟨hfee, fun _ => ?_, fun h25 => ?_, ?_⟩
  · unfold calculatePlatformFee roundPerMille
    split_ifs <;> omega
  · unfold calculatePlatformFee roundPerMille
    split_ifs <;> omega
  · intro jid job total routing hroute
    simp [buildSessionConfig, hroute, hfee]

/-- Claim C10 witness: the guard conclusion at `a = 1` cent with a
Connect routing decision for account `acct_co`. -/
theorem fee_positive_and_guard_at_one :
    0 < calculatePlatformFee 1 ∧
    (buildSessionConfig "j1" ⟨"j1", some "c1", 1, none, none⟩ 1
        (calculatePlatformFee 1) 31
        ⟨true, some "acct_co", true⟩).payment_intent_data =
      some ⟨calculatePlatformFee 1, some "acct_co"⟩ :=
  ⟨(fee_positive_and_guard_never_suppresses 1 (by decide)).1,
    (fee_positive_and_guard_never_suppresses 1 (by decide)).2.2.2
      "j1" ⟨"j1", some "c1", 1, none, none⟩ 31
      ⟨true, some "acct_co", true⟩ rfl⟩

/-- Claim C4: the router answers platform routing whenever the tenant has
no stored connected-account id (no connected profile row, or a row whose
`stripe_account_id` is null), whenever the live Stripe query reports
`charges_enabled = false` for the stored account — the lookup only ever
returns rows whose cached `stripe_connected` flag is already `true`, so
the cached flag is overridden — and whenever that query throws.  (A job
without a `company_id` also routes to the platform.) -/
theorem router_platform_fallbacks (profiles : List Profile) (cid : String)
    (retrieveAccount : String → Except String Bool)
    (h : lookupConnectedProfile profiles cid = none
      ∨ (∃ p, lookupConnectedProfile profiles cid = some p ∧
          p.stripe_account_id = none)
      ∨ (∃ p acct, lookupConnectedProfile profiles cid = some p ∧
          p.stripe_account_id = some acct ∧
          (retrieveAccount acct = Except.ok false ∨
            ∃ e, retrieveAccount acct = Except.error e))) :
    (decideRouting profiles (some cid) retrieveAccount).useStripeConnect =
      false ∧
    (decideRouting profiles none retrieveAccount).useStripeConnect = false := by
  refine ⟨?_, rfl⟩
  rcases h with h | ⟨p, hp, ha⟩ | ⟨p, acct, hp, ha, hr⟩
  · simp [decideRouting, h]
  · simp [decideRouting, hp, ha]
  · by_cases hacct : acct = PLATFORM_STRIPE_ACCOUNT_ID
    · simp [decideRouting, hp, ha, hacct]
    · rcases hr with hr | ⟨e, hr⟩ <;> simp [decideRouting, hp, ha, hacct, hr]

/-- Claim C4 witness: a cached-connected profile whose account the live
query reports as `charges_enabled = false` is routed to the platform. -/
theorem router_platform_on_charges_disabled :
    (decideRouting [⟨"c1", some "acct_co", true⟩] (some "c1")
        (fun _ => Except.ok false)).useStripeConnect = false ∧
    (decideRouting [⟨"c1", some "acct_co", true⟩] none
        (fun _ => Except.ok false)).useStripeConnect = false :=
  router_platform_fallbacks [⟨"c1", some "acct_co", true⟩] "c1"
    (fun _ => Except.ok false)
    (Or.inr (Or.inr ⟨⟨"c1", some "acct_co", true⟩, "acct_co", rfl, rfl,
      Or.inl rfl⟩))

/-- Claim C7: a webhook whose signature verification fails is answered
with HTTP 400 and the database — every job's status included — is left
exactly as it was. -/
theorem webhook_invalid_signature_no_state_change (db : DB) (now : Nat)
    (e : String) :
    handleStripeWebhook (Except.error e) now db = (⟨400, false⟩, db) := rfl

/-- Claim C1 (code bug): delivering the same valid, signed
`checkout.session.completed` event for session `s1` twice leaves the job
paid but stores TWO `receipts` rows for session `s1` — the reconciler
keys nothing on the session id, so redelivery duplicates the receipt side
effect. -/
theorem webhook_redelivery_duplicates_receipt :
    (receiptsForSession
        (handleStripeWebhook
          (Except.ok ⟨"checkout.session.completed", "s1", 5274, some "j1"⟩)
          200
          (handleStripeWebhook
            (Except.ok ⟨"checkout.session.completed", "s1", 5274, some "j1"⟩)
            100 ⟨[⟨"j1", "pending", none, none, 4999⟩], [], 0⟩).2).2
      "s1").length = 2 ∧
    ((handleStripeWebhook
        (Except.ok ⟨"checkout.session.completed", "s1", 5274, some "j1"⟩)
        200
        (handleStripeWebhook
          (Except.ok ⟨"checkout.session.completed", "s1", 5274, some "j1"⟩)
          100 ⟨[⟨"j1", "pending", none, none, 4999⟩], [], 0⟩).2).2.jobs.map
      JobRow.status) = ["paid"] := by
  decide

/-- Claim C8: when the job's base price plus fee totals under 50 cents,
the orchestrator fails with `success:false` and the processor call log is
empty — `sessions.create` is never reached (the minimum-amount check sits
before routing and session creation). -/
theorem checkout_rejects_below_minimum (jid : String) (jobs : List Job)
    (profiles : List Profile)
    (retrieveAccount : String → Except String Bool)
    (createSession : SessionConfig → Option String → Except String StripeSession)
    (job : Job)
    (hfind : jobs.find? (fun j => j.id == jid) = some job)
    (hpos : 0 < job.price_cents)
    (hlow : job.price_cents + calculatePlatformFee job.price_cents < 50) :
    (handleCreateCheckout (some jid) jobs profiles retrieveAccount
        createSession).1.success = false ∧
    (handleCreateCheckout (some jid) jobs profiles retrieveAccount
        createSession).2 = [] := by
  have hne : job.price_cents ≠ 0 := Nat.pos_iff_ne_zero.mp hpos
  simp [handleCreateCheckout, hfind, hne, hlow, checkoutFailure]

/-- Claim C8 witness: a 1¢ job (price $0.01) totals 31¢ with its fee and
is rejected without any processor call. -/
theorem checkout_rejects_one_cent_job :
    (handleCreateCheckout (some "j2") [⟨"j2", none, 1, none, none⟩] []
        okRetrieve okCreate).1.success = false ∧
    (handleCreateCheckout (some "j2") [⟨"j2", none, 1, none, none⟩] []
        okRetrieve okCreate).2 = [] :=
  checkout_rejects_below_minimum "j2" [⟨"j2", none, 1, none, none⟩] []
    okRetrieve okCreate ⟨"j2", none, 1, none, none⟩ rfl (by decide) (by decide)

/-- Claim C5: with Connect routing selected and the primary
`sessions.create` throwing, the orchestrator issues exactly one retry —
the same config with `payment_intent_data` stripped, on the platform
context — and, when that retry succeeds, answers the fallback success
body (`success:true` with the warning field and no error field); with
platform-only routing selected, a failing call is reported as
`{success:false, error}`. -/
theorem checkout_connect_fallback (jid : String) (jobs : List Job)
    (profiles : List Profile)
    (retrieveAccount : String → Except String Bool)
    (createSession : SessionConfig → Option String → Except String StripeSession)
    (job : Job) (e : String) (routing : RoutingResult) (cfg : SessionConfig)
    (acctCtx : Option String)
    (hfind : jobs.find? (fun j => j.id == jid) = some job)
    (hpos : 0 < job.price_cents)
    (hmin : 50 ≤ job.price_cents + calculatePlatformFee job.price_cents)
    (hrouting : routing = decideRouting profiles job.company_id retrieveAccount)
    (hcfg : cfg = buildSessionConfig jid job job.price_cents
      (calculatePlatformFee job.price_cents)
      (job.price_cents + calculatePlatformFee job.price_cents) routing)
    (hctx : acctCtx = if routing.useStripeConnect &&
        routing.connectedStripeAccountId.isSome then
        routing.connectedStripeAccountId else none)
    (hfail : createSession cfg acctCtx = Except.error e) :
    (routing.useStripeConnect = true →
      (handleCreateCheckout (some jid) jobs profiles retrieveAccount
          createSession).2 =
        [(cfg, acctCtx), ({cfg with payment_intent_data := none}, none)] ∧
      ∀ s, createSession {cfg with payment_intent_data := none} none =
          Except.ok s →
        (handleCreateCheckout (some jid) jobs profiles retrieveAccount
            createSession).1 = checkoutFallbackSuccess s) ∧
    (routing.useStripeConnect = false →
      (handleCreateCheckout (some jid) jobs profiles retrieveAccount
          createSession).1 = checkoutFailure e ∧
      (handleCreateCheckout (some jid) jobs profiles retrieveAccount
          createSession).2 = [(cfg, acctCtx)]) := by
  have hne : job.price_cents ≠ 0 := Nat.pos_iff_ne_zero.mp hpos
  have hnotlow : ¬ job.price_cents + calculatePlatformFee job.price_cents < 50 :=
    Nat.not_lt.mpr hmin
  subst hrouting hcfg hctx
  constructor
  · intro hconn
    simp only [handleCreateCheckout, hfind, hne, hnotlow, if_false, if_neg,
      ite_false, hfail]
    rw [hconn]
    constructor
    · cases hfb : createSession
        { buildSessionConfig jid job job.price_cents
            (calculatePlatformFee job.price_cents)
            (job.price_cents + calculatePlatformFee job.price_cents)
            (decideRouting profiles job.company_id retrieveAccount) with
          payment_intent_data := none } none <;>
        simp [hfb]
    · intro s hs
      simp [hs]
  · intro hconn
    simp only [hconn, Bool.false_and, Bool.false_eq_true, if_false,
      ite_false] at hfail
    simp [handleCreateCheckout, hfind, hne, hnotlow, hfail, hconn]

/-- Claim C5 witness: the $49.99 Connect job with a Stripe oracle that
throws on split-carrying configs ends in the fallback success body. -/
theorem checkout_connect_fallback_run :
    (handleCreateCheckout (some "j1") sampleJobs sampleProfiles okRetrieve
        connectFailingCreate).1 =
      checkoutFallbackSuccess ⟨"cs_fb", "https://pay.example/fb"⟩ :=
  ((checkout_connect_fallback "j1" sampleJobs sampleProfiles okRetrieve
      connectFailingCreate ⟨"j1", some "c1", 4999, none, none⟩
      "connect declined" _ _ _ rfl (by decide) (by decide) rfl rfl rfl
      rfl).1 rfl).2 ⟨"cs_fb", "https://pay.example/fb"⟩ rfl

/-- Claim C6, counterexample: the fallback path produces a `success:true`
response with NO `pricing_info` and NO `routing_info` — the claim that
every success response carries the breakdown and routing fields fails on
the platform-only fallback response. -/
theorem fallback_success_missing_breakdown :
    (handleCreateCheckout (some "j1") sampleJobs sampleProfiles okRetrieve
        connectFailingCreate).1.success = true ∧
    (handleCreateCheckout (some "j1") sampleJobs sampleProfiles okRetrieve
        connectFailingCreate).1.pricing_info = none ∧
    (handleCreateCheckout (some "j1") sampleJobs sampleProfiles okRetrieve
        connectFailingCreate).1.routing_info = none := by
  decide

/-- Claim C6 (amended): every `success:true` response of the primary path
(no warning field) carries both `pricing_info` and `routing_info`, while
the platform-only fallback success response (warning field set) omits
both. -/
theorem success_response_breakdown (jobId : Option String)
    (jobs : List Job) (profiles : List Profile)
    (retrieveAccount : String → Except String Bool)
    (createSession : SessionConfig → Option String → Except String StripeSession)
    (resp : CheckoutResponse) (log : List (SessionConfig × Option String))
    (h : handleCreateCheckout jobId jobs profiles retrieveAccount
        createSession = (resp, log))
    (hsucc : resp.success = true) :
    (resp.warning = none →
      resp.pricing_info.isSome ∧ resp.routing_info.isSome) ∧
    (resp.warning ≠ none →
      resp.pricing_info = none ∧ resp.routing_info = none) := by
  simp only [handleCreateCheckout] at h
  repeat' split at h
  all_goals
    rw [Prod.mk.injEq] at h
  all_goals
    obtain ⟨h1, h2⟩ := h
  all_goals
    subst h1
  all_goals
    simp_all [checkoutFailure, checkoutSuccess, checkoutFallbackSuccess]

/-- Claim C6 witness: a primary-path success run carries both
`pricing_info` and `routing_info`. -/
theorem success_response_breakdown_run :
    (handleCreateCheckout (some "j1") sampleJobs sampleProfiles okRetrieve
        okCreate).1.pricing_info.isSome ∧
    (handleCreateCheckout (some "j1") sampleJobs sampleProfiles okRetrieve
        okCreate).1.routing_info.isSome :=
  (success_response_breakdown (some "j1") sampleJobs sampleProfiles
    okRetrieve okCreate
    (handleCreateCheckout (some "j1") sampleJobs sampleProfiles okRetrieve
      okCreate).1
    (handleCreateCheckout (some "j1") sampleJobs sampleProfiles okRetrieve
      okCreate).2
    rfl (by decide)).1 (by decide)

/-- Claim C9, counterexample: the already-connected short-circuit answers
`{success:true, already_connected:true, url}` — not the claimed
`success:false` — and it only fires when `details_submitted` is also
true: with `charges_enabled = true` but `details_submitted = false` the
handler creates a fresh onboarding link instead. -/
theorem already_connected_claim_false :
    ((handleStripeConnect (some ⟨true, some "acct1"⟩)
        (fun _ => Except.ok ⟨true, true⟩) (Except.ok "acct_new")
        (fun _ => Except.ok "https://onboard.example")).1.success = true ∧
      (handleStripeConnect (some ⟨true, some "acct1"⟩)
        (fun _ => Except.ok ⟨true, true⟩) (Except.ok "acct_new")
        (fun _ => Except.ok "https://onboard.example")).1.already_connected =
        true ∧
      (handleStripeConnect (some ⟨true, some "acct1"⟩)
        (fun _ => Except.ok ⟨true, true⟩) (Except.ok "acct_new")
        (fun _ => Except.ok "https://onboard.example")).2.1 = false) ∧
    ((handleStripeConnect (some ⟨true, some "acct1"⟩)
        (fun _ => Except.ok ⟨false, true⟩) (Except.ok "acct_new")
        (fun _ => Except.ok "https://onboard.example")).1.already_connected =
        false ∧
      (handleStripeConnect (some ⟨true, some "acct1"⟩)
        (fun _ => Except.ok ⟨false, true⟩) (Except.ok "acct_new")
        (fun _ => Except.ok "https://onboard.example")).2.1 = true) := by
  decide

/-- Claim C9 (amended): when the caller's profile stores an account id
and the live Stripe query reports `details_submitted` and
`charges_enabled` both true, the handler short-circuits — no onboarding
link and no account is created — and answers
`{success:true, url, already_connected:true}` with the fixed dashboard
URL. -/
theorem already_connected_short_circuit (p : ConnectProfile) (acct : String)
    (retrieveAccount : String → Except String AccountStatus)
    (createAccount : Except String String)
    (createAccountLink : String → Except String String)
    (ha : p.stripe_account_id = some acct)
    (hr : retrieveAccount acct = Except.ok ⟨true, true⟩) :
    handleStripeConnect (some p) retrieveAccount createAccount
        createAccountLink =
      (⟨200, true, some DASHBOARD_URL, none, true, none⟩, false, false) := by
  simp [handleStripeConnect, ha, hr]

/-- Claim C9 witness: the amended short-circuit at a concrete profile and
Stripe oracle. -/
theorem already_connected_short_circuit_run :
    handleStripeConnect (some ⟨true, some "acct1"⟩)
        (fun _ => Except.ok ⟨true, true⟩) (Except.ok "acct_new")
        (fun _ => Except.ok "https://onboard.example") =
      (⟨200, true, some DASHBOARD_URL, none, true, none⟩, false, false) :=
  already_connected_short_circuit ⟨true, some "acct1"⟩ "acct1"
    (fun _ => Except.ok ⟨true, true⟩) (Except.ok "acct_new")
    (fun _ => Except.ok "https://onboard.example") rfl rfl

end BleuSmartFlow
